import Mathlib

/-!
Shallow embedding of the batchrouter Python SDK (request mediation layer):
`batchrouter/client.py`, `batchrouter/exceptions.py`, `batchrouter/batches.py`,
`batchrouter/datasets.py`, `batchrouter/models.py`, `batchrouter/types.py`.

Decoded JSON documents are modelled by the inductive `Json`; numeric JSON
values are modelled as integers (no claim under verification depends on a
fractional value).  Python dictionaries obtained from JSON decoding are
modelled as association lists in decoding order; decoded objects
have no duplicate keys.  A fallible Python call is an `Except`/`Option`
value, and the one side effect relevant to a claim (construction of the
`httpx.Client` transport in `BatchRouter.__init__`) is made explicit as an
event trace.
-/

/-- A decoded JSON value (Python object produced by `response.json()`). -/
inductive Json where
  | null : Json
  | bool : Bool → Json
  | num : Int → Json
  | str : String → Json
  | arr : List Json → Json
  | obj : List (String × Json) → Json

/-- Python truthiness of a decoded JSON value: `None`, `False`, `0`, `""`,
`[]` and `\x7b\x7d` are falsy, everything else is truthy. -/
def pyTruthy : Json → Bool
  | Json.null => false
  | Json.bool b => b
  | Json.num n => n != 0
  | Json.str s => s != ""
  | Json.arr xs => !xs.isEmpty
  | Json.obj kvs => !kvs.isEmpty

/-- Python truthiness of an optional string (`None` and `""` are falsy). -/
def pyTruthyOptStr : Option String → Bool
  | none => false
  | some s => s != ""

/-- Python `a or b` on optional strings: `b` when `a` is falsy, else `a`. -/
def pyOr (a b : Option String) : Option String :=
  if pyTruthyOptStr a then a else b

/-- Python `dict.get(k)`: the value bound to `k`, or `None` when absent.
Decoded JSON objects carry no duplicate keys, so first-match lookup agrees
with the dictionary. -/
def dictGet (kvs : List (String × Json)) (k : String) : Option Json :=
  match kvs with
  | [] => none
  | (k2, v) :: rest => if k2 = k then some v else dictGet rest k

/-- A single quote character, for Python `str()` rendering. -/
def squote : String := String.singleton (Char.ofNat 39)

/-- One character list begins with another (computable prefix test). -/
def listPrefixB : List Char → List Char → Bool
  | [], _ => true
  | _ :: _, [] => false
  | a :: as, b :: bs => a == b && listPrefixB as bs

/-- Python `s.startswith(pre)`. -/
def pyStartsWith (s pre : String) : Bool :=
  listPrefixB pre.data s.data

mutual

/-- Python `str()` of a decoded JSON value (`str(error_data)` in
`BatchRouter._handle_error`): `repr`-style rendering with single-quoted
strings and capitalised `None`/`True`/`False`. -/
def pyStr : Json → String
  | Json.null => "None"
  | Json.bool true => "True"
  | Json.bool false => "False"
  | Json.num n => toString n
  | Json.str s => squote ++ s ++ squote
  | Json.arr xs => "[" ++ String.intercalate ", " (pyStrList xs) ++ "]"
  | Json.obj kvs => "\x7b" ++ String.intercalate ", " (pyStrPairs kvs) ++ "\x7d"

/-- Renders each element of a decoded JSON array for `pyStr`. -/
def pyStrList : List Json → List String
  | [] => []
  | x :: rest => pyStr x :: pyStrList rest

/-- Renders each key-value pair of a decoded JSON object for `pyStr`. -/
def pyStrPairs : List (String × Json) → List String
  | [] => []
  | (k, v) :: rest => (squote ++ k ++ squote ++ ": " ++ pyStr v) :: pyStrPairs rest

end

/-! ## exceptions.py -/

/-- The exception class raised (`batchrouter/exceptions.py`). -/
inductive ErrorKind where
  | batchRouterError
  | authenticationError
  | notFoundError
  | validationError
  | serverError
deriving DecidableEq, Repr

/-- A raised BatchRouter exception: its class, its `message` attribute (an
arbitrary Python object, here a `Json` value), and its `status_code`
attribute. -/
structure BRError where
  kind : ErrorKind
  message : Json
  status_code : Option Nat

/-- `BatchRouterError(message, status_code)` (exceptions.py line 4). -/
def BatchRouterError.make (message : Json) (status_code : Option Nat) : BRError :=
  ⟨ErrorKind.batchRouterError, message, status_code⟩

/-- `AuthenticationError(message)`: fixed `status_code=401` and default
message (exceptions.py line 13). -/
def AuthenticationError.make
    (message : Json := Json.str "Invalid or missing API key") : BRError :=
  ⟨ErrorKind.authenticationError, message, some 401⟩

/-- `NotFoundError(message)`: fixed `status_code=404` (exceptions.py line 20). -/
def NotFoundError.make (message : Json := Json.str "Resource not found") : BRError :=
  ⟨ErrorKind.notFoundError, message, some 404⟩

/-- `ValidationError(message)`: fixed `status_code=422` (exceptions.py line 27). -/
def ValidationError.make (message : Json := Json.str "Validation failed") : BRError :=
  ⟨ErrorKind.validationError, message, some 422⟩

/-- `ServerError(message)`: fixed `status_code=500` regardless of the actual
5xx status (exceptions.py line 34). -/
def ServerError.make (message : Json := Json.str "Server error") : BRError :=
  ⟨ErrorKind.serverError, message, some 500⟩

/-! ## client.py -/

/-- An HTTP response as the client observes it: status code, the result of
`response.json()` (`none` when decoding raises), and `response.text`. -/
structure Response where
  status_code : Nat
  jsonBody : Option Json
  text : String

/-- `httpx.Response.is_success`: status in the 200-299 range. -/
def Response.is_success (r : Response) : Bool :=
  200 ≤ r.status_code && r.status_code < 300

/-- The `try` block of `BatchRouter._handle_error` (client.py lines 92-96):
`error_data = response.json(); message = error_data.get("detail",
str(error_data))`, and on any exception (JSON decoding fails, or the decoded
value is not a dict so `.get` raises) `message = response.text or
f"HTTP \x7bresponse.status_code\x7d"`. -/
def extractErrorMessage (r : Response) : Json :=
  match r.jsonBody with
  | some (Json.obj kvs) =>
      (dictGet kvs "detail").getD (Json.str (pyStr (Json.obj kvs)))
  | _ =>
      Json.str (if r.text != "" then r.text else "HTTP " ++ toString r.status_code)

/-- `BatchRouter._handle_error` (client.py lines 90-107): extract the message,
then raise the exception selected by the status code.  The returned value is
the exception raised; the Python function never returns normally. -/
def handle_error (r : Response) : BRError :=
  let message := extractErrorMessage r
  if r.status_code = 401 then AuthenticationError.make message
  else if r.status_code = 404 then NotFoundError.make message
  else if r.status_code = 422 then ValidationError.make message
  else if 500 ≤ r.status_code then ServerError.make message
  else BatchRouterError.make message (some r.status_code)

/-- Outcome of `BatchRouter._request` after the transport returned a
response: an exception raised by `_handle_error`, a raised JSON-decode
failure on the success path, or a normal return (`none` is Python `None`). -/
inductive RequestOutcome where
  | raised : BRError → RequestOutcome
  | decodeFailed : RequestOutcome
  | value : Option Json → RequestOutcome

/-- The response-handling tail of `BatchRouter._request` (client.py lines
136-142): non-success routes to `_handle_error` and raises; status 204
returns `None` without touching the body; otherwise `response.json()` is
returned (raising if the body does not decode). -/
def requestOutcome (r : Response) : RequestOutcome :=
  if !r.is_success then RequestOutcome.raised (handle_error r)
  else if r.status_code = 204 then RequestOutcome.value none
  else
    match r.jsonBody with
    | some j => RequestOutcome.value (some j)
    | none => RequestOutcome.decodeFailed

/-- Python `str.rstrip("/")`: drop every trailing slash. -/
def rstripSlash (s : String) : String :=
  String.mk ((s.data.reverse.dropWhile (fun ch => ch = '/')).reverse)

/-- The client state established by a successful `BatchRouter.__init__`:
the stored API key, the trailing-slash-stripped base URL, and the timeout. -/
structure Client where
  api_key : String
  base_url : String
  timeout : Rat
deriving DecidableEq, Repr

/-- Side effects of `BatchRouter.__init__` that acquire resources: the
construction of the `httpx.Client` transport (client.py line 75). -/
inductive InitEvent where
  | acquireTransport
deriving DecidableEq, Repr

/-- `BatchRouter.__init__` (client.py lines 58-80).  `api_key` is the
explicit argument, `envApiKey` the value of the `BATCHROUTER_API_KEY`
environment variable (`none` when unset).  Returns the trace of resource
acquisitions together with either the raised `AuthenticationError` or the
constructed client state. -/
def clientInit (api_key envApiKey : Option String) (base_url : String)
    (timeout : Rat) : List InitEvent × Except BRError Client :=
  let key := pyOr api_key envApiKey
  if pyTruthyOptStr key = false then
    ([], Except.error (AuthenticationError.make (Json.str
      "API key is required. Pass api_key parameter or set BATCHROUTER_API_KEY env var.")))
  else
    match key with
    | some s =>
      if !pyStartsWith s "br_" then
        ([], Except.error (AuthenticationError.make (Json.str
          ("Invalid API key format. API keys should start with " ++
            squote ++ "br_" ++ squote ++ "."))))
      else
        ([InitEvent.acquireTransport],
          Except.ok ⟨s, rstripSlash base_url, timeout⟩)
    | none => ([], Except.error (AuthenticationError.make (Json.str
        "API key is required. Pass api_key parameter or set BATCHROUTER_API_KEY env var.")))

/-- `BatchRouter._get_headers` (client.py lines 82-88). -/
def get_headers (api_key : String) : List (String × String) :=
  [("Authorization", "Bearer " ++ api_key),
   ("Content-Type", "application/json"),
   ("User-Agent", "batchrouter-python/0.1.0")]

/-- A request as handed to the transport by `BatchRouter._request`
(client.py lines 109-134): method, absolute URL, headers, query parameters,
optional JSON body, form fields, and whether file parts are attached. -/
structure SentRequest where
  method : String
  url : String
  headers : List (String × String)
  params : List (String × Json)
  jsonPayload : Option (List (String × Json))
  dataFields : List (String × String)
  hasFiles : Bool

/-- The request-building head of `BatchRouter._request` (client.py lines
119-134): URL is `self._base_url + "/api" + path`, headers come from
`_get_headers`, and `Content-Type` is deleted when file parts are present. -/
def buildRequest (c : Client) (method path : String)
    (params : List (String × Json)) (jsonPayload : Option (List (String × Json)))
    (dataFields : List (String × String)) (hasFiles : Bool) : SentRequest :=
  let url := c.base_url ++ "/api" ++ path
  let headers := get_headers c.api_key
  let headers := if hasFiles then headers.filter (fun kv => kv.1 ≠ "Content-Type")
                 else headers
  ⟨method, url, headers, params, jsonPayload, dataFields, hasFiles⟩

/-! ## batches.py -/

/-- The JSON payload built by `Batches.create` (batches.py lines 37-44):
`dataset_name` and `model` always, `provider` and `description` appended
only when truthy.  Defaults mirror the Python signature
(`model="auto"`, `provider=None`, `description=None`). -/
def Batches.createPayload (dataset_name : String) (model : String := "auto")
    (provider : Option String := none) (description : Option String := none) :
    List (String × Json) :=
  let payload := [("dataset_name", Json.str dataset_name),
                  ("model", Json.str model)]
  let payload := if pyTruthyOptStr provider = true then
      payload ++ [("provider", Json.str (provider.getD ""))]
    else payload
  let payload := if pyTruthyOptStr description = true then
      payload ++ [("description", Json.str (description.getD ""))]
    else payload
  payload

/-- The request sent by `Batches.create` (batches.py line 46):
`POST /v1/batches` with the built payload as JSON body, no query
parameters, no form fields, no file parts. -/
def Batches.createSent (c : Client) (dataset_name : String)
    (model : String := "auto") (provider : Option String := none)
    (description : Option String := none) : SentRequest :=
  buildRequest c "POST" "/v1/batches" [] 
    (some (Batches.createPayload dataset_name model provider description)) [] false

/-! ## datasets.py -/

/-- A parsed `Dataset` record (types.py lines 9-20); timestamps are kept as
their wire strings. -/
structure Dataset where
  id : String
  name : String
  description : Option String
  file_size : Option Int
  record_count : Option Int
  status : String
  validation_error : Option String
  created_at : String
  updated_at : Option String
deriving DecidableEq, Repr

/-- The request sent by `Datasets.list` (datasets.py lines 77-81):
`GET /v1/datasets` with `page` and `page_size` query parameters.  Defaults
mirror the Python signature (`page=1`, `page_size=20`). -/
def Datasets.listSent (c : Client) (page : Int := 1) (page_size : Int := 20) :
    SentRequest :=
  buildRequest c "GET" "/v1/datasets"
    [("page", Json.num page), ("page_size", Json.num page_size)] none [] false

/-- The single request issued by `Datasets.get_by_name` (datasets.py line
105): `self.list(page_size=100)`, i.e. page 1 with page size 100. -/
def Datasets.get_by_nameSent (c : Client) : SentRequest :=
  Datasets.listSent c 1 100

/-- The `for` loop of `Datasets.get_by_name` (datasets.py lines 106-109)
over the page returned by `Datasets.list`: return the first dataset whose
name equals the argument, else `None`. -/
def Datasets.get_by_name : List Dataset → String → Option Dataset
  | [], _ => none
  | d :: rest, n => if d.name = n then some d else Datasets.get_by_name rest n

/-! ## models.py / types.py -/

/-- A parsed `ModelProvider` record (types.py lines 31-38); the per-million
token prices are integer-valued in this embedding. -/
structure ModelProvider where
  id : String
  name : String
  batch_input_price_per_1m : Option Int
  batch_output_price_per_1m : Option Int
  is_batch_supported : Bool
deriving DecidableEq, Repr

/-- A parsed `Model` record (types.py lines 41-52). -/
structure Model where
  name : String
  display_name : Option String
  description : Option String
  context_window : Option Int
  max_output_tokens : Option Int
  capabilities : List String
  is_deprecated : Bool
  release_date : Option String
  providers : List ModelProvider
deriving DecidableEq, Repr

/-- Pydantic extraction of a required `str` field. -/
def fieldStr (kvs : List (String × Json)) (k : String) : Except String String :=
  match dictGet kvs k with
  | some (Json.str s) => Except.ok s
  | _ => Except.error ("validation error: " ++ k)

/-- Pydantic extraction of a `str | None = None` field. -/
def fieldOptStr (kvs : List (String × Json)) (k : String) :
    Except String (Option String) :=
  match dictGet kvs k with
  | none => Except.ok none
  | some Json.null => Except.ok none
  | some (Json.str s) => Except.ok (some s)
  | some _ => Except.error ("validation error: " ++ k)

/-- Pydantic extraction of an `int | None = None` field (also used for the
integer-valued price fields of this embedding). -/
def fieldOptInt (kvs : List (String × Json)) (k : String) :
    Except String (Option Int) :=
  match dictGet kvs k with
  | none => Except.ok none
  | some Json.null => Except.ok none
  | some (Json.num n) => Except.ok (some n)
  | some _ => Except.error ("validation error: " ++ k)

/-- Pydantic extraction of a `bool` field with a default. -/
def fieldBoolD (kvs : List (String × Json)) (k : String) (dflt : Bool) :
    Except String Bool :=
  match dictGet kvs k with
  | none => Except.ok dflt
  | some (Json.bool b) => Except.ok b
  | some _ => Except.error ("validation error: " ++ k)

/-- Pydantic extraction of a `list[str] = []` field. -/
def fieldStrListD (kvs : List (String × Json)) (k : String) :
    Except String (List String) :=
  match dictGet kvs k with
  | none => Except.ok []
  | some (Json.arr xs) =>
      xs.mapM fun x =>
        match x with
        | Json.str s => Except.ok s
        | _ => Except.error ("validation error: " ++ k)
  | some _ => Except.error ("validation error: " ++ k)

/-- Pydantic construction `ModelProvider(**d)` from a decoded JSON value. -/
def providerOfJson : Json → Except String ModelProvider
  | Json.obj kvs => do
      let idv ← fieldStr kvs "id"
      let namev ← fieldStr kvs "name"
      let inp ← fieldOptInt kvs "batch_input_price_per_1m"
      let outp ← fieldOptInt kvs "batch_output_price_per_1m"
      let supp ← fieldBoolD kvs "is_batch_supported" true
      Except.ok ⟨idv, namev, inp, outp, supp⟩
  | _ => Except.error "validation error: ModelProvider expects a mapping"

/-- Pydantic construction `Model(**response)` from a decoded JSON value
(models.py line 39). -/
def modelOfJson : Json → Except String Model
  | Json.obj kvs => do
      let namev ← fieldStr kvs "name"
      let disp ← fieldOptStr kvs "display_name"
      let desc ← fieldOptStr kvs "description"
      let ctx ← fieldOptInt kvs "context_window"
      let maxOut ← fieldOptInt kvs "max_output_tokens"
      let caps ← fieldStrListD kvs "capabilities"
      let depr ← fieldBoolD kvs "is_deprecated" false
      let rel ← fieldOptStr kvs "release_date"
      let provs ←
        match dictGet kvs "providers" with
        | none => Except.ok []
        | some (Json.arr xs) => xs.mapM providerOfJson
        | some _ => Except.error "validation error: providers"
      Except.ok ⟨namev, disp, desc, ctx, maxOut, caps, depr, rel, provs⟩
  | _ => Except.error "validation error: Model expects a mapping"

/-- The request sent by `Models.get` (models.py line 37). -/
def Models.getSent (c : Client) (name : String) : SentRequest :=
  buildRequest c "GET" ("/v1/routing/models/" ++ name) [] none [] false

/-- The result handling of `Models.get` (models.py lines 38-40): `if
response: return Model(**response); return None`.  The argument is the
decoded success body; the `Except` layer is the pydantic validation failure
that `Model(**response)` may raise. -/
def Models.getResult (body : Json) : Except String (Option Model) :=
  if pyTruthy body = true then (modelOfJson body).map some
  else Except.ok none

/-! ## Helper notions and lemmas -/

/-- Substring test: `needle` occurs contiguously in `hay`. -/
def strContainsB (hay needle : String) : Bool :=
  (List.range (hay.data.length + 1)).any fun i =>
    listPrefixB needle.data (hay.data.drop i)

/-- An exception message (a Python object) mentions the given text: it is a
string containing it as a substring. -/
def jsonMentions (m : Json) (needle : String) : Prop :=
  ∃ s, m = Json.str s ∧ strContainsB s needle = true

/-- The message of the raised exception is the one the `try` block of
`_handle_error` computed, whichever exception class is selected. -/
theorem handle_error_message (r : Response) :
    (handle_error r).message = extractErrorMessage r := by
  unfold handle_error
  repeat' split
  all_goals rfl

/-- A successful `BatchRouter.__init__` acquired the transport, stored the
resolved key (non-empty, `br_`-prefixed) and the stripped base URL. -/
theorem clientInit_ok (a e : Option String) (b : String) (t : Rat)
    (tr : List InitEvent) (c : Client)
    (h : clientInit a e b t = (tr, Except.ok c)) :
    tr = [InitEvent.acquireTransport] ∧ pyOr a e = some c.api_key ∧
      c.api_key ≠ "" ∧ pyStartsWith c.api_key "br_" = true ∧
      c.base_url = rstripSlash b ∧ c.timeout = t := by
  unfold clientInit at h
  dsimp only at h
  split at h
  · simp at h
  · split at h
    · split at h
      · simp at h
      · rename_i htruthy key s hkey hpre
        simp only [Prod.mk.injEq, Except.ok.injEq] at h
        obtain ⟨htr, hc⟩ := h
        subst hc
        refine ⟨htr.symm, hkey, ?_, by simpa using hpre, rfl, rfl⟩
        intro habs
        apply htruthy
        rw [hkey]
        simp only [pyTruthyOptStr]
        simp only [bne_eq_false_iff_eq]
        exact habs
    · simp at h

/-! ## Claim theorems -/

/-- C1: for every non-success response the request operation routes to the
error-translation procedure and raises (never returns normally), and the
exception class is exactly the one selected by the status code, the
unclassified catch-all carrying `status_code = c`. -/
theorem C1_error_kind_selection (r : Response) (h : r.is_success = false) :
    requestOutcome r = RequestOutcome.raised (handle_error r) ∧
    (r.status_code = 401 → (handle_error r).kind = ErrorKind.authenticationError) ∧
    (r.status_code = 404 → (handle_error r).kind = ErrorKind.notFoundError) ∧
    (r.status_code = 422 → (handle_error r).kind = ErrorKind.validationError) ∧
    (500 ≤ r.status_code → (handle_error r).kind = ErrorKind.serverError) ∧
    (r.status_code ≠ 401 → r.status_code ≠ 404 → r.status_code ≠ 422 →
      r.status_code < 500 →
      (handle_error r).kind = ErrorKind.batchRouterError ∧
      (handle_error r).status_code = some r.status_code) := by
  refine ⟨by simp [requestOutcome, h], ?_, ?_, ?_, ?_, ?_⟩
  · intro h1
    simp [handle_error, h1, AuthenticationError.make]
  · intro h2
    simp [handle_error, h2, NotFoundError.make]
  · intro h3
    simp [handle_error, h3, ValidationError.make]
  · intro h5
    have n1 : r.status_code ≠ 401 := by omega
    have n2 : r.status_code ≠ 404 := by omega
    have n3 : r.status_code ≠ 422 := by omega
    simp [handle_error, n1, n2, n3, h5, ServerError.make]
  · intro n1 n2 n3 hlt
    have n5 : ¬ 500 ≤ r.status_code := by omega
    simp [handle_error, n1, n2, n3, n5, BatchRouterError.make]

/-- C1 witness: a concrete 418 response raises the base error with
`status_code = 418`. -/
theorem C1_error_kind_selection_witness :
    requestOutcome ⟨418, none, ""⟩ =
      RequestOutcome.raised (handle_error ⟨418, none, ""⟩) ∧
    (handle_error ⟨418, none, ""⟩).kind = ErrorKind.batchRouterError ∧
    (handle_error ⟨418, none, ""⟩).status_code = some 418 := by
  have h := C1_error_kind_selection ⟨418, none, ""⟩ (by decide)
  have h6 := h.2.2.2.2.2 (by decide) (by decide) (by decide) (by decide)
  exact ⟨h.1, h6.1, h6.2⟩

/-- C2 counterexample: a 502 response raises a ServerError whose
`status_code` is 500, not 502 — the claim that every raised error carries
the original status code fails at 5xx statuses other than 500. -/
theorem C2_counterexample_502 :
    (handle_error ⟨502, none, "Bad Gateway"⟩).kind = ErrorKind.serverError ∧
    (handle_error ⟨502, none, "Bad Gateway"⟩).status_code = some 500 ∧
    ¬ (handle_error ⟨502, none, "Bad Gateway"⟩).status_code = some 502 := by
  refine ⟨rfl, rfl, ?_⟩
  intro habs
  have : (500 : Nat) = 502 := by
    have h := Option.some.inj ((rfl :
      (handle_error ⟨502, none, "Bad Gateway"⟩).status_code = some 500).symm.trans habs)
    exact h
  omega

/-- C2 amended: errors raised for 401, 404, 422 and unclassified sub-500
statuses carry the original status code, but every `c ≥ 500` raises a
ServerError whose `status_code` is the fixed 500 (equal to `c` only when
`c = 500`). -/
theorem C2_status_code_amended (r : Response) (hns : r.is_success = false) :
    (r.status_code < 500 →
      (handle_error r).status_code = some r.status_code) ∧
    (500 ≤ r.status_code →
      (handle_error r).kind = ErrorKind.serverError ∧
      (handle_error r).status_code = some 500) := by
  constructor
  · intro hlt
    by_cases h1 : r.status_code = 401
    · simp [handle_error, h1, AuthenticationError.make]
    · by_cases h2 : r.status_code = 404
      · simp [handle_error, h1, h2, NotFoundError.make]
      · by_cases h3 : r.status_code = 422
        · simp [handle_error, h1, h2, h3, ValidationError.make]
        · have n5 : ¬ 500 ≤ r.status_code := by omega
          simp [handle_error, h1, h2, h3, n5, BatchRouterError.make]
  · intro hge
    have n1 : r.status_code ≠ 401 := by omega
    have n2 : r.status_code ≠ 404 := by omega
    have n3 : r.status_code ≠ 422 := by omega
    simp [handle_error, n1, n2, n3, hge, ServerError.make]

/-- C2 amended witness: a 404 error carries 404; a 503 error is a
ServerError carrying the fixed 500. -/
theorem C2_status_code_amended_witness :
    (handle_error ⟨404, none, ""⟩).status_code = some 404 ∧
    (handle_error ⟨503, none, ""⟩).kind = ErrorKind.serverError ∧
    (handle_error ⟨503, none, ""⟩).status_code = some 500 :=
  ⟨(C2_status_code_amended ⟨404, none, ""⟩ (by decide)).1 (by decide),
   (C2_status_code_amended ⟨503, none, ""⟩ (by decide)).2 (by decide)⟩

/-- C3: the message of the raised error follows the three-tier fallback —
the `detail` field of the JSON body when present, else the raw response text when
non-empty, else the synthesized `"HTTP <status>"`. -/
theorem C3_message_three_tier (r : Response) :
    (∀ kvs v, r.jsonBody = some (Json.obj kvs) → dictGet kvs "detail" = some v →
      (handle_error r).message = v) ∧
    (r.jsonBody = none → r.text ≠ "" →
      (handle_error r).message = Json.str r.text) ∧
    (r.jsonBody = none → r.text = "" →
      (handle_error r).message = Json.str ("HTTP " ++ toString r.status_code)) := by
  refine ⟨?_, ?_, ?_⟩
  · intro kvs v hbody hdetail
    rw [handle_error_message]
    simp [extractErrorMessage, hbody, hdetail]
  · intro hbody htext
    rw [handle_error_message]
    simp [extractErrorMessage, hbody, htext]
  · intro hbody htext
    rw [handle_error_message]
    simp [extractErrorMessage, hbody, htext]

/-- C3 witness: the three tiers at concrete 500 responses — a
`\x7b"detail": "X"\x7d` body gives "X", a non-JSON body with text "Y" gives
"Y", and an empty non-JSON body gives "HTTP 500". -/
theorem C3_message_three_tier_witness :
    (handle_error ⟨500, some (Json.obj [("detail", Json.str "X")]), ""⟩).message
        = Json.str "X" ∧
    (handle_error ⟨500, none, "Y"⟩).message = Json.str "Y" ∧
    (handle_error ⟨500, none, ""⟩).message = Json.str ("HTTP " ++ toString 500) :=
  ⟨(C3_message_three_tier ⟨500, some (Json.obj [("detail", Json.str "X")]), ""⟩).1
      [("detail", Json.str "X")] (Json.str "X") rfl rfl,
   (C3_message_three_tier ⟨500, none, "Y"⟩).2.1 rfl (by simp),
   (C3_message_three_tier ⟨500, none, ""⟩).2.2 rfl rfl⟩

/-- C4: with no credential and no environment fallback, and likewise with a
credential lacking the `br_` prefix, construction raises AuthenticationError
(mentioning "API key is required", resp. the required prefix) with an empty
resource-acquisition trace — the transport is never constructed. -/
theorem C4_credential_validation (b : String) (t : Rat) :
    (∃ e, clientInit none none b t = ([], Except.error e) ∧
      e.kind = ErrorKind.authenticationError ∧
      jsonMentions e.message "API key is required") ∧
    (∀ k, k ≠ "" → pyStartsWith k "br_" = false →
      ∃ e, clientInit (some k) none b t = ([], Except.error e) ∧
        e.kind = ErrorKind.authenticationError ∧
        jsonMentions e.message "br_") := by
  constructor
  · refine ⟨_, rfl, rfl, ?_⟩
    exact ⟨_, rfl, by decide⟩
  · intro k hk hpre
    have hne : (k != "") = true := bne_iff_ne.mpr hk
    have heq : clientInit (some k) none b t =
        ([], Except.error (AuthenticationError.make (Json.str
          ("Invalid API key format. API keys should start with " ++
            squote ++ "br_" ++ squote ++ ".")))) := by
      unfold clientInit
      dsimp only
      simp [pyOr, pyTruthyOptStr, hne, hpre]
    refine ⟨_, heq, rfl, ?_⟩
    exact ⟨_, rfl, by decide⟩

/-- C4 witness: concrete failing constructions — no key at all and the
malformed key "sk_123" — both fail with AuthenticationError and no
transport acquisition. -/
theorem C4_credential_validation_witness :
    (∃ e, clientInit none none "https://api.batchrouter.ai" 60 =
        ([], Except.error e) ∧
      e.kind = ErrorKind.authenticationError ∧
      jsonMentions e.message "API key is required") ∧
    (∃ e, clientInit (some "sk_123") none "https://api.batchrouter.ai" 60 =
        ([], Except.error e) ∧
      e.kind = ErrorKind.authenticationError ∧
      jsonMentions e.message "br_") :=
  ⟨(C4_credential_validation "https://api.batchrouter.ai" 60).1,
   (C4_credential_validation "https://api.batchrouter.ai" 60).2 "sk_123"
     (by decide) (by decide)⟩

/-- C5: `Batches.create` with only a dataset name sends exactly
`\x7b"dataset_name": "ds", "model": "auto"\x7d`, and in general
`dataset_name`/`model` are always in the body while `provider` and
`description` appear iff they are truthy (empty string counts as absent). -/
theorem C5_create_payload (c : Client) (dataset_name model : String)
    (provider description : Option String) :
    (Batches.createSent c "ds").jsonPayload =
      some [("dataset_name", Json.str "ds"), ("model", Json.str "auto")] ∧
    Batches.createPayload "ds" =
      [("dataset_name", Json.str "ds"), ("model", Json.str "auto")] ∧
    ("dataset_name" ∈ (Batches.createPayload dataset_name model provider
        description).map Prod.fst) ∧
    ("model" ∈ (Batches.createPayload dataset_name model provider
        description).map Prod.fst) ∧
    (("provider" ∈ (Batches.createPayload dataset_name model provider
        description).map Prod.fst) ↔ pyTruthyOptStr provider = true) ∧
    (("description" ∈ (Batches.createPayload dataset_name model provider
        description).map Prod.fst) ↔ pyTruthyOptStr description = true) := by
  refine ⟨rfl, rfl, ?_, ?_, ?_, ?_⟩ <;>
    cases hp : pyTruthyOptStr provider <;>
      cases hd : pyTruthyOptStr description <;>
        simp [Batches.createPayload, hp, hd]

/-- The scan of `Datasets.get_by_name` returns a first match: the result has
the requested name, sits at some index of the page, and every earlier index
has a different name. -/
theorem get_by_name_first_match (page : List Dataset) (n : String) (d : Dataset)
    (h : Datasets.get_by_name page n = some d) :
    d.name = n ∧ ∃ i, ∃ hi : i < page.length, page.get ⟨i, hi⟩ = d ∧
      ∀ j, ∀ hj : j < i, (page.get ⟨j, by omega⟩).name ≠ n := by
  induction page with
  | nil => simp [Datasets.get_by_name] at h
  | cons d0 rest ih =>
    by_cases h0 : d0.name = n
    · rw [Datasets.get_by_name, if_pos h0] at h
      obtain rfl : d0 = d := Option.some.inj h
      refine ⟨h0, 0, by simp, rfl, ?_⟩
      intro j hj
      omega
    · rw [Datasets.get_by_name, if_neg h0] at h
      obtain ⟨hname, i, hi, hget, hfirst⟩ := ih h
      refine ⟨hname, i + 1, by simpa using hi, by simpa using hget, ?_⟩
      intro j hj
      cases j with
      | zero => simpa using h0
      | succ j => simpa using hfirst j (by omega)

/-- The scan of `Datasets.get_by_name` returns `none` exactly when no
dataset on the page has the requested name. -/
theorem get_by_name_none_iff (page : List Dataset) (n : String) :
    Datasets.get_by_name page n = none ↔ ∀ d ∈ page, d.name ≠ n := by
  induction page with
  | nil => simp [Datasets.get_by_name]
  | cons d0 rest ih =>
    by_cases h0 : d0.name = n <;> simp [Datasets.get_by_name, h0, ih]

/-- C6: `Datasets.get_by_name` issues the single page-1 list request with
page size 100 (no further pagination), scans it linearly, returns the first
dataset whose name equals the argument, and returns `None` (no error, no
exception) exactly when no element matches. -/
theorem C6_get_by_name (c : Client) (page : List Dataset) (n : String) :
    Datasets.get_by_nameSent c = Datasets.listSent c 1 100 ∧
    (Datasets.get_by_nameSent c).params =
      [("page", Json.num 1), ("page_size", Json.num 100)] ∧
    (∀ d, Datasets.get_by_name page n = some d → d.name = n ∧
      ∃ i, ∃ hi : i < page.length, page.get ⟨i, hi⟩ = d ∧
        ∀ j, ∀ hj : j < i, (page.get ⟨j, by omega⟩).name ≠ n) ∧
    (Datasets.get_by_name page n = none ↔ ∀ d ∈ page, d.name ≠ n) := by
  exact ⟨rfl, rfl, fun d h => get_by_name_first_match page n d h,
    get_by_name_none_iff page n⟩

/-- C6 witness: over a one-element page with name "alpha", looking up
"missing" returns `none` and looking up "alpha" returns the element. -/
theorem C6_get_by_name_witness :
    Datasets.get_by_name
        [⟨"id1", "alpha", none, none, none, "validated", none, "t0", none⟩]
        "missing" = none ∧
    Datasets.get_by_name
        [⟨"id1", "alpha", none, none, none, "validated", none, "t0", none⟩]
        "alpha" =
      some ⟨"id1", "alpha", none, none, none, "validated", none, "t0", none⟩ := by
  constructor
  · exact (C6_get_by_name ⟨"br_k", "u", 60⟩
      [⟨"id1", "alpha", none, none, none, "validated", none, "t0", none⟩]
      "missing").2.2.2.mpr (by decide)
  · rfl

/-- C7: every request built by the Mediator carries the bearer authorization
header and the fixed client identifier; the JSON content-type header is
present exactly when no file parts are attached; and the URL is the
trailing-slash-stripped base URL, then "/api", then the logical path. -/
theorem C7_headers_and_url (api_key envApiKey : Option String) (b : String)
    (t : Rat) (tr : List InitEvent) (c : Client)
    (h : clientInit api_key envApiKey b t = (tr, Except.ok c))
    (method path : String) (params : List (String × Json))
    (jsonPayload : Option (List (String × Json)))
    (dataFields : List (String × String)) (hasFiles : Bool) :
    ("Authorization", "Bearer " ++ c.api_key) ∈
      (buildRequest c method path params jsonPayload dataFields hasFiles).headers ∧
    ("User-Agent", "batchrouter-python/0.1.0") ∈
      (buildRequest c method path params jsonPayload dataFields hasFiles).headers ∧
    (hasFiles = false → ("Content-Type", "application/json") ∈
      (buildRequest c method path params jsonPayload dataFields hasFiles).headers) ∧
    (hasFiles = true → ∀ v, ("Content-Type", v) ∉
      (buildRequest c method path params jsonPayload dataFields hasFiles).headers) ∧
    (buildRequest c method path params jsonPayload dataFields hasFiles).url =
      rstripSlash b ++ "/api" ++ path := by
  obtain ⟨-, -, -, -, hbase, -⟩ := clientInit_ok _ _ _ _ _ _ h
  cases hasFiles <;> simp [buildRequest, get_headers, hbase]

/-- C7 witness: a concrete client built from a slash-terminated base URL,
with and without file parts. -/
theorem C7_headers_and_url_witness :
    ("Authorization", "Bearer " ++ "br_key") ∈
      (buildRequest ⟨"br_key", "https://api.batchrouter.ai", 60⟩ "POST"
        "/v1/batches" [] none [] false).headers ∧
    (∀ v, ("Content-Type", v) ∉
      (buildRequest ⟨"br_key", "https://api.batchrouter.ai", 60⟩ "POST"
        "/v1/datasets" [] none [] true).headers) ∧
    (buildRequest ⟨"br_key", "https://api.batchrouter.ai", 60⟩ "POST"
        "/v1/batches" [] none [] false).url =
      rstripSlash "https://api.batchrouter.ai/" ++ "/api" ++ "/v1/batches" := by
  have h1 := C7_headers_and_url (some "br_key") none "https://api.batchrouter.ai/"
    60 [InitEvent.acquireTransport] ⟨"br_key", "https://api.batchrouter.ai", 60⟩
    rfl "POST" "/v1/batches" [] none [] false
  have h2 := C7_headers_and_url (some "br_key") none "https://api.batchrouter.ai/"
    60 [InitEvent.acquireTransport] ⟨"br_key", "https://api.batchrouter.ai", 60⟩
    rfl "POST" "/v1/datasets" [] none [] true
  exact ⟨h1.1, h2.2.2.2.1 rfl, h1.2.2.2.2⟩

/-- C8: a successful 204 response makes the JSON-returning request operation
return `None` with no decode attempt (even an undecodable body is ignored);
every other successful status decodes and returns the JSON body. -/
theorem C8_204_returns_none (r : Response) :
    (r.status_code = 204 → requestOutcome r = RequestOutcome.value none) ∧
    (r.is_success = true → r.status_code ≠ 204 →
      ∀ j, r.jsonBody = some j →
        requestOutcome r = RequestOutcome.value (some j)) := by
  constructor
  · intro h204
    have hs : r.is_success = true := by simp [Response.is_success, h204]
    simp [requestOutcome, hs, h204]
  · intro hs hne j hj
    simp [requestOutcome, hs, hne, hj]

/-- C8 witness: a 204 response with an undecodable body returns `None`; a
200 response returns its decoded body. -/
theorem C8_204_returns_none_witness :
    requestOutcome ⟨204, none, ""⟩ = RequestOutcome.value none ∧
    requestOutcome ⟨200, some Json.null, ""⟩ =
      RequestOutcome.value (some Json.null) :=
  ⟨(C8_204_returns_none ⟨204, none, ""⟩).1 rfl,
   (C8_204_returns_none ⟨200, some Json.null, ""⟩).2 (by decide) (by decide)
     Json.null rfl⟩

/-- C9: an explicit empty-string credential is treated exactly like an
absent one — construction behaves identically, falls back to the
environment, raises AuthenticationError when that is also absent or empty,
and the empty string is never the stored credential. -/
theorem C9_empty_key_like_absent (envApiKey : Option String) (b : String)
    (t : Rat) :
    clientInit (some "") envApiKey b t = clientInit none envApiKey b t ∧
    ((envApiKey = none ∨ envApiKey = some "") →
      ∃ e, clientInit (some "") envApiKey b t = ([], Except.error e) ∧
        e.kind = ErrorKind.authenticationError ∧
        jsonMentions e.message "API key is required") ∧
    (∀ tr c, clientInit (some "") envApiKey b t = (tr, Except.ok c) →
      c.api_key ≠ "") := by
  refine ⟨rfl, ?_, ?_⟩
  · rintro (rfl | rfl)
    · exact ⟨_, rfl, rfl, _, rfl, by decide⟩
    · exact ⟨_, rfl, rfl, _, rfl, by decide⟩
  · intro tr c h
    exact (clientInit_ok _ _ _ _ _ _ h).2.2.1

/-- C9 witness: with no environment fallback the empty-string credential
behaves like an absent one and fails authentication. -/
theorem C9_empty_key_like_absent_witness :
    clientInit (some "") none "https://api.batchrouter.ai" 60 =
      clientInit none none "https://api.batchrouter.ai" 60 ∧
    (∃ e, clientInit (some "") none "https://api.batchrouter.ai" 60 =
        ([], Except.error e) ∧
      e.kind = ErrorKind.authenticationError ∧
      jsonMentions e.message "API key is required") :=
  ⟨(C9_empty_key_like_absent none "https://api.batchrouter.ai" 60).1,
   (C9_empty_key_like_absent none "https://api.batchrouter.ai" 60).2.1
     (Or.inl rfl)⟩

/-- C10: `Models.get` returns `None` whenever the decoded success body is
falsy — including a JSON `null` and the empty object — and attempts `Model`
construction exactly when the body is truthy; a returned `Model` therefore
certifies a truthy body. -/
theorem C10_models_get_truthiness (body : Json) :
    (pyTruthy body = false → Models.getResult body = Except.ok none) ∧
    Models.getResult Json.null = Except.ok none ∧
    Models.getResult (Json.obj []) = Except.ok none ∧
    (pyTruthy body = true →
      Models.getResult body = (modelOfJson body).map some) ∧
    (∀ m, Models.getResult body = Except.ok (some m) → pyTruthy body = true) := by
  refine ⟨?_, rfl, rfl, ?_, ?_⟩
  · intro hfalse
    simp [Models.getResult, hfalse]
  · intro htrue
    simp [Models.getResult, htrue]
  · intro m h
    by_cases hp : pyTruthy body = true
    · exact hp
    · rw [Models.getResult] at h
      simp [hp] at h

/-- C10 witness: the empty-string body yields `None`; a truthy body with a
`name` field goes through `Model` construction. -/
theorem C10_models_get_truthiness_witness :
    Models.getResult (Json.str "") = Except.ok none ∧
    Models.getResult (Json.obj [("name", Json.str "gpt-4o")]) =
      (modelOfJson (Json.obj [("name", Json.str "gpt-4o")])).map some :=
  ⟨(C10_models_get_truthiness (Json.str "")).1 (by decide),
   (C10_models_get_truthiness (Json.obj [("name", Json.str "gpt-4o")])).2.2.2.1
     (by decide)⟩
